import Mathlib

/-!
Shallow embedding of the double-entry bookkeeping core of the repository:
the chart of accounts, the journal generator and the ledger aggregator from
src/lib/accounting.ts, the balance-sheet derivation from
src/pages/ReportsPage.tsx and the dashboard cash-flow stats from src/App.tsx.
Currency amounts are embedded as exact rationals (the store declares them as
PostgreSQL numeric, and the spec demands exact arithmetic).
-/

namespace Pembukuan

/-- Account categories, from the AccountType union in accounting.ts. -/
inductive AccountType where
  | Asset
  | Liability
  | Equity
  | Revenue
  | Expense
deriving DecidableEq

/-- Normal balance side of an account ('Debit' | 'Credit'). -/
inductive NormalBalance where
  | Debit
  | Credit
deriving DecidableEq

/-- An account of the chart of accounts (interface Account in accounting.ts). -/
structure Account where
  code : String
  name : String
  type : AccountType
  normalBalance : NormalBalance
deriving DecidableEq

/-- The fixed chart of accounts, in the order Object.values enumerates the
keyed record (ascending integer-like keys, which coincides with insertion
order in the source). -/
def CHART_OF_ACCOUNTS : List Account :=
  [ ⟨"101", "Kas & Bank", AccountType.Asset, NormalBalance.Debit⟩,
    ⟨"102", "Piutang Usaha", AccountType.Asset, NormalBalance.Debit⟩,
    ⟨"201", "Utang Usaha", AccountType.Liability, NormalBalance.Credit⟩,
    ⟨"301", "Modal Pemilik", AccountType.Equity, NormalBalance.Credit⟩,
    ⟨"302", "Laba Ditahan", AccountType.Equity, NormalBalance.Credit⟩,
    ⟨"303", "Prive", AccountType.Equity, NormalBalance.Debit⟩,
    ⟨"401", "Pendapatan Jasa", AccountType.Revenue, NormalBalance.Credit⟩,
    ⟨"501", "Beban Operasional", AccountType.Expense, NormalBalance.Debit⟩ ]

/-- Keyed access CHART_OF_ACCOUNTS[code] of the source record. -/
def chartLookup (code : String) : Option Account :=
  CHART_OF_ACCOUNTS.find? (fun a => a.code == code)

/-- CHART_OF_ACCOUNTS[code].name; every access in the source uses a literal
key present in the chart, so the fallback is never taken. -/
def accountNameOf (code : String) : String :=
  ((chartLookup code).map Account.name).getD ""

/-- Transaction type union 'income' | 'expense' (src/types/index.ts). -/
inductive TxType where
  | income
  | expense
deriving DecidableEq

/-- Payment status union 'paid' | 'unpaid' (src/types/index.ts). -/
inductive PaymentStatus where
  | paid
  | unpaid
deriving DecidableEq

/-- interface Transaction of src/types/index.ts, amounts as exact rationals. -/
structure Transaction where
  id : String
  date : String
  description : String
  amount : Rat
  type : TxType
  payment_status : PaymentStatus
  created_at : String
deriving DecidableEq

/-- interface JournalEntryLine of accounting.ts. -/
structure JournalEntryLine where
  accountId : String
  accountName : String
  debit : Rat
  credit : Rat
deriving DecidableEq

/-- interface JournalEntry of accounting.ts. -/
structure JournalEntry where
  id : String
  date : String
  description : String
  lines : List JournalEntryLine
deriving DecidableEq

/-- The body of the map in generateJournal: build the journal entry of one
transaction. Income always credits Revenue 401 first, then debits Cash 101
(paid) or Accounts Receivable 102 (unpaid); expense always debits Expense 501
first, then credits Cash 101 (paid) or Accounts Payable 201 (unpaid). -/
def mkEntry (t : Transaction) : JournalEntry :=
  let amount := t.amount
  let lines : List JournalEntryLine :=
    match t.type with
    | TxType.income =>
        ⟨"401", accountNameOf "401", 0, amount⟩ ::
          (match t.payment_status with
           | PaymentStatus.paid => [⟨"101", accountNameOf "101", amount, 0⟩]
           | PaymentStatus.unpaid => [⟨"102", accountNameOf "102", amount, 0⟩])
    | TxType.expense =>
        ⟨"501", accountNameOf "501", amount, 0⟩ ::
          (match t.payment_status with
           | PaymentStatus.paid => [⟨"101", accountNameOf "101", 0, amount⟩]
           | PaymentStatus.unpaid => [⟨"201", accountNameOf "201", 0, amount⟩])
  ⟨t.id, t.date, t.description, lines⟩

/-- generateJournal of accounting.ts: transactions.map over mkEntry. -/
def generateJournal (transactions : List Transaction) : List JournalEntry :=
  transactions.map mkEntry

/-- Sum of the debit fields of an entry's lines. -/
def debitTotal (e : JournalEntry) : Rat :=
  (e.lines.map (fun l => l.debit)).sum

/-- Sum of the credit fields of an entry's lines. -/
def creditTotal (e : JournalEntry) : Rat :=
  (e.lines.map (fun l => l.credit)).sum

/-- One posted row of a ledger account's entries array in accounting.ts. -/
structure LedgerEntry where
  date : String
  description : String
  debit : Rat
  credit : Rat
deriving DecidableEq

/-- interface LedgerAccount of accounting.ts. -/
structure LedgerAccount where
  code : String
  name : String
  type : AccountType
  balance : Rat
  entries : List LedgerEntry
deriving DecidableEq

/-- Fresh ledger view of one chart account: balance 0, no entries. -/
def initAccount (acc : Account) : LedgerAccount :=
  ⟨acc.code, acc.name, acc.type, 0, []⟩

/-- The initialization loop of generateLedger: every chart account starts
with balance 0 and an empty entries list, in chart enumeration order. -/
def initLedger : List LedgerAccount :=
  CHART_OF_ACCOUNTS.map initAccount

/-- The running-balance update of one line on the account it refers to:
CHART_OF_ACCOUNTS[code].normalBalance decides the sign. The none branch is
unreachable in generateLedger, whose accounts all carry chart codes (the
source would crash on an undefined lookup there). -/
def lineDelta (code : String) (line : JournalEntryLine) : Rat :=
  match chartLookup code with
  | some acc =>
      if acc.normalBalance = NormalBalance.Debit then line.debit - line.credit
      else line.credit - line.debit
  | none => 0

/-- The body of the inner loop of generateLedger, acting on one ledger
account: ledger[line.accountId], when defined, gets the (date, description,
debit, credit) row appended and its balance updated by the normal-balance
sign convention; every other account is untouched. -/
def applyLine (e : JournalEntry) (line : JournalEntryLine) (account : LedgerAccount) :
    LedgerAccount :=
  if account.code = line.accountId then
    { account with
      balance := account.balance + lineDelta account.code line,
      entries := account.entries ++ [⟨e.date, e.description, line.debit, line.credit⟩] }
  else account

/-- Post all lines of one journal entry into the ledger, left to right.
A line whose accountId is no ledger key matches no account and is skipped,
exactly as the if (account) guard of the source does. -/
def postEntry (ledger : List LedgerAccount) (entry : JournalEntry) : List LedgerAccount :=
  entry.lines.foldl (fun led line => led.map (applyLine entry line)) ledger

/-- generateLedger of accounting.ts: initialize the full chart, then fold the
journal entries in order; the result lists the accounts in chart order, as
Object.values does in the source. -/
def generateLedger (journal : List JournalEntry) : List LedgerAccount :=
  journal.foldl postEntry initLedger

/-- Balance of the ledger account with the given code (0 if no such account). -/
def balAt (code : String) (ledger : List LedgerAccount) : Rat :=
  ((ledger.find? (fun a => a.code == code)).map (fun a => a.balance)).getD 0

/-- Entries list of the ledger account with the given code ([] if absent). -/
def entriesAt (code : String) (ledger : List LedgerAccount) : List LedgerEntry :=
  ((ledger.find? (fun a => a.code == code)).map (fun a => a.entries)).getD []

/-- The balanceSheetData memo of src/pages/ReportsPage.tsx. -/
structure BalanceSheetData where
  cash : Rat
  accountsReceivable : Rat
  totalAssets : Rat
  accountsPayable : Rat
  totalLiabilities : Rat
  equity : Rat
deriving DecidableEq

/-- balanceSheetData of src/pages/ReportsPage.tsx: cash from paid
transactions (income adds, expense subtracts), receivable from unpaid income,
payable from unpaid expense, equity defined as assets minus liabilities. -/
def balanceSheetData (transactions : List Transaction) : BalanceSheetData :=
  let cash :=
    ((transactions.filter (fun t => t.payment_status == PaymentStatus.paid)).map
      (fun t => if t.type = TxType.income then t.amount else -t.amount)).sum
  let accountsReceivable :=
    ((transactions.filter
        (fun t => t.type == TxType.income && t.payment_status == PaymentStatus.unpaid)).map
      (fun t => t.amount)).sum
  let totalAssets := cash + accountsReceivable
  let accountsPayable :=
    ((transactions.filter
        (fun t => t.type == TxType.expense && t.payment_status == PaymentStatus.unpaid)).map
      (fun t => t.amount)).sum
  let totalLiabilities := accountsPayable
  let equity := totalAssets - totalLiabilities
  ⟨cash, accountsReceivable, totalAssets, accountsPayable, totalLiabilities, equity⟩

/-- The stats memo of src/App.tsx. -/
structure Stats where
  income : Rat
  expenses : Rat
  profit : Rat
  unpaid : Rat
deriving DecidableEq

/-- stats of src/App.tsx: paid income total, paid expense total, profit as
their difference, and the unpaid income total. -/
def stats (transactions : List Transaction) : Stats :=
  let income :=
    ((transactions.filter
        (fun t => t.type == TxType.income && t.payment_status == PaymentStatus.paid)).map
      (fun t => t.amount)).sum
  let expenses :=
    ((transactions.filter
        (fun t => t.type == TxType.expense && t.payment_status == PaymentStatus.paid)).map
      (fun t => t.amount)).sum
  let unpaid :=
    ((transactions.filter
        (fun t => t.type == TxType.income && t.payment_status == PaymentStatus.unpaid)).map
      (fun t => t.amount)).sum
  let profit := income - expenses
  ⟨income, expenses, profit, unpaid⟩

/-- Totals of the ledger-based balance sheet of spec section 4.3. -/
structure LedgerBalanceSheet where
  assets : Rat
  liabilities : Rat
  equity : Rat
deriving DecidableEq

/-- The ledger-based balance-sheet derivation, following the words of spec
section 4.3 for comparison against balanceSheetData: Assets = ledger balance
of Cash 101 + ledger balance of Accounts Receivable 102, Liabilities = ledger
balance of Accounts Payable 201, Equity = Owner Capital 301 ledger balance +
(Revenue 401 ledger balance - Expense 501 ledger balance). -/
def ledgerBalanceSheet (transactions : List Transaction) : LedgerBalanceSheet :=
  let L := generateLedger (generateJournal transactions)
  ⟨balAt "101" L + balAt "102" L,
   balAt "201" L,
   balAt "301" L + (balAt "401" L - balAt "501" L)⟩

/-- Sample paid income transaction, used to instantiate theorems. -/
def txA : Transaction :=
  ⟨"a", "2025-01-01", "jasa", 100000, TxType.income, PaymentStatus.paid, "c"⟩

/-- Sample unpaid expense transaction with a date distinct from txA. -/
def txB : Transaction :=
  ⟨"b", "2025-01-02", "beban", 30000, TxType.expense, PaymentStatus.unpaid, "c"⟩

/-- Sample unpaid income transaction, used to instantiate theorems. -/
def txU : Transaction :=
  ⟨"u", "2025-01-05", "piutang", 7000, TxType.income, PaymentStatus.unpaid, "c"⟩

/-- Fold the lines of one entry into a single account. -/
def applyLines (e : JournalEntry) (lines : List JournalEntryLine)
    (account : LedgerAccount) : LedgerAccount :=
  lines.foldl (fun acc line => applyLine e line acc) account

/-- Fold one whole journal entry into a single account. -/
def applyEntry (entry : JournalEntry) (account : LedgerAccount) : LedgerAccount :=
  applyLines entry entry.lines account

/-- Fold a whole journal into a single account. -/
def applyJournal (journal : List JournalEntry) (account : LedgerAccount) :
    LedgerAccount :=
  journal.foldl (fun acc entry => applyEntry entry acc) account

/-- Net balance effect of one journal entry on the account with this code. -/
def entryDelta (code : String) (e : JournalEntry) : Rat :=
  (e.lines.map (fun line => if code = line.accountId then lineDelta code line else 0)).sum

/-- Net balance effect of a whole journal on the account with this code. -/
def journalDelta (code : String) (J : List JournalEntry) : Rat :=
  (J.map (entryDelta code)).sum

/-- Rows one journal entry posts into the account with this code. -/
def entryPostings (code : String) (e : JournalEntry) : List LedgerEntry :=
  (e.lines.filter (fun line => code == line.accountId)).map
    (fun line => ⟨e.date, e.description, line.debit, line.credit⟩)

/-- Rows a whole journal posts into the account with this code, in order. -/
def journalPostings (code : String) (J : List JournalEntry) : List LedgerEntry :=
  (J.map (entryPostings code)).flatten

/-- No line of any entry of the journal refers to this account code. -/
def noPostings (code : String) (J : List JournalEntry) : Prop :=
  ∀ e ∈ J, ∀ l ∈ e.lines, l.accountId ≠ code

/-- A journal entry with only the lines whose accountId is a chart key. -/
def keepChartLines (e : JournalEntry) : JournalEntry :=
  ⟨e.id, e.date, e.description,
   e.lines.filter (fun l => (chartLookup l.accountId).isSome)⟩

example :
    generateJournal
      [⟨"t1", "2025-01-01", "jasa", 100000, TxType.income, PaymentStatus.paid, "c"⟩] =
    [⟨"t1", "2025-01-01", "jasa",
      [⟨"401", "Pendapatan Jasa", 0, 100000⟩, ⟨"101", "Kas & Bank", 100000, 0⟩]⟩] := by
  decide

example :
    balAt "101"
      (generateLedger (generateJournal
        [⟨"t1", "2025-01-01", "jasa", 100000, TxType.income, PaymentStatus.paid, "c"⟩,
         ⟨"t2", "2025-01-02", "beban", 30000, TxType.expense, PaymentStatus.unpaid, "c"⟩])) =
      100000 := by
  simp [balAt, generateLedger, generateJournal, mkEntry, initLedger, initAccount,
    CHART_OF_ACCOUNTS, postEntry, applyLine, lineDelta, chartLookup, accountNameOf]

example :
    entriesAt "401"
      (generateLedger (generateJournal
        [⟨"t1", "2025-01-01", "jasa", 100000, TxType.income, PaymentStatus.paid, "c"⟩])) =
      [⟨"2025-01-01", "jasa", 0, 100000⟩] := by
  simp [entriesAt, generateLedger, generateJournal, mkEntry, initLedger, initAccount,
    CHART_OF_ACCOUNTS, postEntry, applyLine, lineDelta, chartLookup, accountNameOf]

example :
    (generateLedger []).map (fun a => a.code) =
      ["101", "102", "201", "301", "302", "303", "401", "501"] := by
  decide

/-! Characterization of generateLedger: since every posting step maps a
code-preserving update over the account list, the whole fold acts on each
chart account independently. -/

lemma foldl_lines_map (e : JournalEntry) (lines : List JournalEntryLine)
    (L : List LedgerAccount) :
    lines.foldl (fun led line => led.map (applyLine e line)) L =
      L.map (applyLines e lines) := by
  induction lines generalizing L with
  | nil => rw [show applyLines e [] = id from rfl, List.map_id, List.foldl_nil]
  | cons l ls ih =>
      simp only [List.foldl_cons, ih, List.map_map]
      rfl

lemma postEntry_eq_map (L : List LedgerAccount) (e : JournalEntry) :
    postEntry L e = L.map (applyEntry e) :=
  foldl_lines_map e e.lines L

lemma foldl_postEntry_map (J : List JournalEntry) (L : List LedgerAccount) :
    J.foldl postEntry L = L.map (applyJournal J) := by
  induction J generalizing L with
  | nil => rw [show applyJournal [] = id from rfl, List.map_id, List.foldl_nil]
  | cons e J ih =>
      simp only [List.foldl_cons, postEntry_eq_map, ih, List.map_map]
      rfl

lemma generateLedger_eq_map (J : List JournalEntry) :
    generateLedger J = CHART_OF_ACCOUNTS.map (fun acc => applyJournal J (initAccount acc)) := by
  simp only [generateLedger, foldl_postEntry_map, initLedger, List.map_map]
  rfl

lemma applyLine_code (e : JournalEntry) (line : JournalEntryLine)
    (a : LedgerAccount) : (applyLine e line a).code = a.code := by
  unfold applyLine
  split <;> rfl

lemma applyLines_code (e : JournalEntry) (lines : List JournalEntryLine)
    (a : LedgerAccount) : (applyLines e lines a).code = a.code := by
  induction lines generalizing a with
  | nil => rfl
  | cons l ls ih =>
      simp only [applyLines, List.foldl_cons] at ih ⊢
      rw [ih, applyLine_code]

lemma applyJournal_code (J : List JournalEntry) (a : LedgerAccount) :
    (applyJournal J a).code = a.code := by
  induction J generalizing a with
  | nil => rfl
  | cons e J ih =>
      simp only [applyJournal, List.foldl_cons] at ih ⊢
      rw [ih, applyEntry, applyLines_code]

lemma applyLine_balance (e : JournalEntry) (line : JournalEntryLine)
    (a : LedgerAccount) :
    (applyLine e line a).balance =
      a.balance + (if a.code = line.accountId then lineDelta a.code line else 0) := by
  unfold applyLine
  split <;> simp [*]

lemma applyLine_entries (e : JournalEntry) (line : JournalEntryLine)
    (a : LedgerAccount) :
    (applyLine e line a).entries =
      a.entries ++
        (if a.code = line.accountId then
          [(⟨e.date, e.description, line.debit, line.credit⟩ : LedgerEntry)] else []) := by
  unfold applyLine
  split <;> simp [*]

lemma applyLines_balance (e : JournalEntry) (lines : List JournalEntryLine)
    (a : LedgerAccount) :
    (applyLines e lines a).balance =
      a.balance +
        (lines.map (fun line =>
          if a.code = line.accountId then lineDelta a.code line else 0)).sum := by
  induction lines generalizing a with
  | nil => simp [applyLines]
  | cons l ls ih =>
      simp only [applyLines, List.foldl_cons] at ih ⊢
      rw [ih (applyLine e l a)]
      simp only [applyLine_code, applyLine_balance, List.map_cons, List.sum_cons]
      ring

lemma applyLines_entries (e : JournalEntry) (lines : List JournalEntryLine)
    (a : LedgerAccount) :
    (applyLines e lines a).entries =
      a.entries ++
        (lines.filter (fun line => a.code == line.accountId)).map
          (fun line => ⟨e.date, e.description, line.debit, line.credit⟩) := by
  induction lines generalizing a with
  | nil => simp [applyLines]
  | cons l ls ih =>
      simp only [applyLines, List.foldl_cons] at ih ⊢
      rw [ih (applyLine e l a)]
      simp only [applyLine_code, applyLine_entries, List.filter_cons]
      by_cases h : a.code = l.accountId
      · simp [h, List.append_assoc]
      · simp [h, beq_eq_false_iff_ne.mpr h]

lemma applyEntry_code (e : JournalEntry) (a : LedgerAccount) :
    (applyEntry e a).code = a.code :=
  applyLines_code e e.lines a

lemma applyEntry_balance (e : JournalEntry) (a : LedgerAccount) :
    (applyEntry e a).balance = a.balance + entryDelta a.code e := by
  rw [applyEntry, applyLines_balance, entryDelta]

lemma applyEntry_entries (e : JournalEntry) (a : LedgerAccount) :
    (applyEntry e a).entries = a.entries ++ entryPostings a.code e := by
  rw [applyEntry, applyLines_entries, entryPostings]

lemma applyJournal_balance (J : List JournalEntry) (a : LedgerAccount) :
    (applyJournal J a).balance = a.balance + journalDelta a.code J := by
  induction J generalizing a with
  | nil => simp [applyJournal, journalDelta]
  | cons e J ih =>
      simp only [applyJournal, List.foldl_cons] at ih ⊢
      rw [ih (applyEntry e a)]
      simp only [applyEntry_code, applyEntry_balance, journalDelta, List.map_cons,
        List.sum_cons]
      ring

lemma applyJournal_entries (J : List JournalEntry) (a : LedgerAccount) :
    (applyJournal J a).entries = a.entries ++ journalPostings a.code J := by
  induction J generalizing a with
  | nil => simp [applyJournal, journalPostings]
  | cons e J ih =>
      simp only [applyJournal, List.foldl_cons] at ih ⊢
      rw [ih (applyEntry e a)]
      simp only [applyEntry_code, applyEntry_entries, journalPostings, List.map_cons,
        List.flatten_cons, List.append_assoc]

lemma find?_generateLedger (J : List JournalEntry) (c : String) :
    (generateLedger J).find? (fun a => a.code == c) =
      (chartLookup c).map (fun acc => applyJournal J (initAccount acc)) := by
  rw [generateLedger_eq_map, List.find?_map, chartLookup]
  have hfun :
      ((fun (a : LedgerAccount) => a.code == c) ∘ fun acc => applyJournal J (initAccount acc)) =
        fun (acc : Account) => acc.code == c := by
    funext acc
    simp [Function.comp, applyJournal_code, initAccount]
  rw [hfun]

lemma balAt_generateLedger_some (J : List JournalEntry) (c : String) (acc : Account)
    (h : chartLookup c = some acc) :
    balAt c (generateLedger J) = journalDelta c J := by
  have hc : acc.code = c := by
    have hp := List.find?_some h
    simpa using hp
  rw [balAt, find?_generateLedger, h]
  simp [applyJournal_balance, initAccount, hc]

lemma balAt_generateLedger_none (J : List JournalEntry) (c : String)
    (h : chartLookup c = none) : balAt c (generateLedger J) = 0 := by
  rw [balAt, find?_generateLedger, h]
  rfl

lemma entriesAt_generateLedger_some (J : List JournalEntry) (c : String) (acc : Account)
    (h : chartLookup c = some acc) :
    entriesAt c (generateLedger J) = journalPostings c J := by
  have hc : acc.code = c := by
    have hp := List.find?_some h
    simpa using hp
  rw [entriesAt, find?_generateLedger, h]
  simp [applyJournal_entries, initAccount, hc]

lemma entriesAt_generateLedger_none (J : List JournalEntry) (c : String)
    (h : chartLookup c = none) : entriesAt c (generateLedger J) = [] := by
  rw [entriesAt, find?_generateLedger, h]
  rfl

lemma journalDelta_generateJournal (c : String) (ts : List Transaction) :
    journalDelta c (generateJournal ts) =
      (ts.map (fun t => entryDelta c (mkEntry t))).sum := by
  rw [journalDelta, generateJournal, List.map_map]
  rfl

lemma journalPostings_generateJournal (c : String) (ts : List Transaction) :
    journalPostings c (generateJournal ts) =
      (ts.map (fun t => entryPostings c (mkEntry t))).flatten := by
  rw [journalPostings, generateJournal, List.map_map]
  rfl

lemma generateLedger_codes (J : List JournalEntry) :
    (generateLedger J).map (fun a => a.code) =
      CHART_OF_ACCOUNTS.map (fun a => a.code) := by
  rw [generateLedger_eq_map, List.map_map]
  have hfun :
      ((fun (a : LedgerAccount) => a.code) ∘ fun acc => applyJournal J (initAccount acc)) =
        fun (acc : Account) => acc.code := by
    funext acc
    simp [Function.comp, applyJournal_code, initAccount]
  rw [hfun]

lemma forall2_generateJournal (R : Transaction → JournalEntry → Prop)
    (h : ∀ t, R t (mkEntry t)) (ts : List Transaction) :
    List.Forall₂ R ts (generateJournal ts) := by
  rw [generateJournal]
  induction ts with
  | nil => exact List.Forall₂.nil
  | cons t ts ih => exact List.Forall₂.cons (h t) ih

/-! Per-transaction net balance effects, one lemma per account code. -/

lemma entryDelta_mkEntry_101 (t : Transaction) :
    entryDelta "101" (mkEntry t) =
      match t.type, t.payment_status with
      | TxType.income, PaymentStatus.paid => t.amount
      | TxType.expense, PaymentStatus.paid => -t.amount
      | _, _ => 0 := by
  cases ht : t.type <;> cases hp : t.payment_status <;>
    simp [entryDelta, mkEntry, ht, hp, lineDelta, chartLookup, CHART_OF_ACCOUNTS,
      accountNameOf]

lemma entryDelta_mkEntry_102 (t : Transaction) :
    entryDelta "102" (mkEntry t) =
      match t.type, t.payment_status with
      | TxType.income, PaymentStatus.unpaid => t.amount
      | _, _ => 0 := by
  cases ht : t.type <;> cases hp : t.payment_status <;>
    simp [entryDelta, mkEntry, ht, hp, lineDelta, chartLookup, CHART_OF_ACCOUNTS,
      accountNameOf]

lemma entryDelta_mkEntry_201 (t : Transaction) :
    entryDelta "201" (mkEntry t) =
      match t.type, t.payment_status with
      | TxType.expense, PaymentStatus.unpaid => t.amount
      | _, _ => 0 := by
  cases ht : t.type <;> cases hp : t.payment_status <;>
    simp [entryDelta, mkEntry, ht, hp, lineDelta, chartLookup, CHART_OF_ACCOUNTS,
      accountNameOf]

lemma entryDelta_mkEntry_301 (t : Transaction) :
    entryDelta "301" (mkEntry t) = 0 := by
  cases ht : t.type <;> cases hp : t.payment_status <;>
    simp [entryDelta, mkEntry, ht, hp, lineDelta, chartLookup, CHART_OF_ACCOUNTS,
      accountNameOf]

lemma entryDelta_mkEntry_401 (t : Transaction) :
    entryDelta "401" (mkEntry t) =
      match t.type with
      | TxType.income => t.amount
      | TxType.expense => 0 := by
  cases ht : t.type <;> cases hp : t.payment_status <;>
    simp [entryDelta, mkEntry, ht, hp, lineDelta, chartLookup, CHART_OF_ACCOUNTS,
      accountNameOf]

lemma entryDelta_mkEntry_501 (t : Transaction) :
    entryDelta "501" (mkEntry t) =
      match t.type with
      | TxType.income => 0
      | TxType.expense => t.amount := by
  cases ht : t.type <;> cases hp : t.payment_status <;>
    simp [entryDelta, mkEntry, ht, hp, lineDelta, chartLookup, CHART_OF_ACCOUNTS,
      accountNameOf]

/-! List-sum helpers. -/

lemma sum_map_addf {α : Type} (f g : α → Rat) (l : List α) :
    (l.map (fun x => f x + g x)).sum = (l.map f).sum + (l.map g).sum := by
  induction l with
  | nil => simp
  | cons x l ih =>
      simp only [List.map_cons, List.sum_cons, ih]
      ring

lemma sum_map_subf {α : Type} (f g : α → Rat) (l : List α) :
    (l.map (fun x => f x - g x)).sum = (l.map f).sum - (l.map g).sum := by
  induction l with
  | nil => simp
  | cons x l ih =>
      simp only [List.map_cons, List.sum_cons, ih]
      ring

lemma sum_filter_eq_sum_ite {α : Type} (p : α → Bool) (f : α → Rat) (l : List α) :
    ((l.filter p).map f).sum = (l.map (fun x => if p x then f x else 0)).sum := by
  induction l with
  | nil => rfl
  | cons x l ih =>
      by_cases h : p x <;> simp [List.filter_cons, h, ih]

lemma balAt_journal_sum (c : String) (ts : List Transaction)
    (h : (chartLookup c).isSome = true) :
    balAt c (generateLedger (generateJournal ts)) =
      (ts.map (fun t => entryDelta c (mkEntry t))).sum := by
  cases hc : chartLookup c with
  | none => simp [hc] at h
  | some acc => rw [balAt_generateLedger_some _ c acc hc, journalDelta_generateJournal]

lemma sums_identity (ts : List Transaction) :
    (ts.map (fun t => entryDelta "101" (mkEntry t))).sum +
      (ts.map (fun t => entryDelta "102" (mkEntry t))).sum =
    (ts.map (fun t => entryDelta "201" (mkEntry t))).sum +
      ((ts.map (fun t => entryDelta "301" (mkEntry t))).sum +
        ((ts.map (fun t => entryDelta "401" (mkEntry t))).sum -
          (ts.map (fun t => entryDelta "501" (mkEntry t))).sum)) := by
  induction ts with
  | nil => simp
  | cons t ts ih =>
      simp only [entryDelta_mkEntry_101, entryDelta_mkEntry_102,
        entryDelta_mkEntry_201, entryDelta_mkEntry_301, entryDelta_mkEntry_401,
        entryDelta_mkEntry_501] at ih ⊢
      simp only [List.map_cons, List.sum_cons]
      cases ht : t.type <;> cases hp : t.payment_status <;>
        simp [ht, hp] at ih ⊢ <;> linarith [ih]

lemma balanceSheetData_cash_sum (ts : List Transaction) :
    (balanceSheetData ts).cash =
      (ts.map (fun t => entryDelta "101" (mkEntry t))).sum := by
  simp only [balanceSheetData]
  rw [sum_filter_eq_sum_ite]
  have hf :
      (fun (t : Transaction) =>
        if t.payment_status == PaymentStatus.paid then
          (if t.type = TxType.income then t.amount else -t.amount) else 0) =
        fun t => entryDelta "101" (mkEntry t) := by
    funext t
    cases ht : t.type <;> cases hp : t.payment_status <;>
      simp [ht, hp, entryDelta_mkEntry_101]
  rw [hf]

lemma balanceSheetData_ar_sum (ts : List Transaction) :
    (balanceSheetData ts).accountsReceivable =
      (ts.map (fun t => entryDelta "102" (mkEntry t))).sum := by
  simp only [balanceSheetData]
  rw [sum_filter_eq_sum_ite]
  have hf :
      (fun (t : Transaction) =>
        if t.type == TxType.income && t.payment_status == PaymentStatus.unpaid then
          t.amount else 0) =
        fun t => entryDelta "102" (mkEntry t) := by
    funext t
    cases ht : t.type <;> cases hp : t.payment_status <;>
      simp [ht, hp, entryDelta_mkEntry_102]
  rw [hf]

lemma balanceSheetData_ap_sum (ts : List Transaction) :
    (balanceSheetData ts).accountsPayable =
      (ts.map (fun t => entryDelta "201" (mkEntry t))).sum := by
  simp only [balanceSheetData]
  rw [sum_filter_eq_sum_ite]
  have hf :
      (fun (t : Transaction) =>
        if t.type == TxType.expense && t.payment_status == PaymentStatus.unpaid then
          t.amount else 0) =
        fun t => entryDelta "201" (mkEntry t) := by
    funext t
    cases ht : t.type <;> cases hp : t.payment_status <;>
      simp [ht, hp, entryDelta_mkEntry_201]
  rw [hf]

lemma balanceSheetData_totalAssets_eq (ts : List Transaction) :
    (balanceSheetData ts).totalAssets =
      (balanceSheetData ts).cash + (balanceSheetData ts).accountsReceivable := rfl

lemma balanceSheetData_totalLiabilities_eq (ts : List Transaction) :
    (balanceSheetData ts).totalLiabilities = (balanceSheetData ts).accountsPayable := rfl

lemma balanceSheetData_equity_eq (ts : List Transaction) :
    (balanceSheetData ts).equity =
      (balanceSheetData ts).totalAssets - (balanceSheetData ts).totalLiabilities := rfl

lemma balanceSheets_agree (ts : List Transaction) :
    (balanceSheetData ts).totalAssets = (ledgerBalanceSheet ts).assets ∧
    (balanceSheetData ts).totalLiabilities = (ledgerBalanceSheet ts).liabilities ∧
    (balanceSheetData ts).equity = (ledgerBalanceSheet ts).equity := by
  have h101 := balAt_journal_sum "101" ts (by decide)
  have h102 := balAt_journal_sum "102" ts (by decide)
  have h201 := balAt_journal_sum "201" ts (by decide)
  have h301 := balAt_journal_sum "301" ts (by decide)
  have h401 := balAt_journal_sum "401" ts (by decide)
  have h501 := balAt_journal_sum "501" ts (by decide)
  have hsum := sums_identity ts
  refine ⟨?_, ?_, ?_⟩
  · simp only [balanceSheetData_totalAssets_eq, balanceSheetData_cash_sum,
      balanceSheetData_ar_sum, ledgerBalanceSheet, h101, h102]
  · simp only [balanceSheetData_totalLiabilities_eq, balanceSheetData_ap_sum,
      ledgerBalanceSheet, h201]
  · simp only [balanceSheetData_equity_eq, balanceSheetData_totalAssets_eq,
      balanceSheetData_totalLiabilities_eq, balanceSheetData_cash_sum,
      balanceSheetData_ar_sum, balanceSheetData_ap_sum, ledgerBalanceSheet,
      h301, h401, h501]
    linarith [hsum]

lemma entryDelta_eq_zero (c : String) (e : JournalEntry)
    (h : ∀ l ∈ e.lines, l.accountId ≠ c) : entryDelta c e = 0 := by
  rw [entryDelta]
  apply List.sum_eq_zero
  intro y hy
  rw [List.mem_map] at hy
  obtain ⟨l, hl, rfl⟩ := hy
  exact if_neg fun hEq => h l hl hEq.symm

lemma journalDelta_eq_zero (c : String) (J : List JournalEntry) (h : noPostings c J) :
    journalDelta c J = 0 := by
  rw [journalDelta]
  apply List.sum_eq_zero
  intro x hx
  rw [List.mem_map] at hx
  obtain ⟨e, he, rfl⟩ := hx
  exact entryDelta_eq_zero c e (fun l hl => h e he l hl)

lemma entryPostings_eq_nil (c : String) (e : JournalEntry)
    (h : ∀ l ∈ e.lines, l.accountId ≠ c) : entryPostings c e = [] := by
  rw [entryPostings]
  have hfil : e.lines.filter (fun line => c == line.accountId) = [] := by
    rw [List.filter_eq_nil_iff]
    intro l hl
    simp only [beq_iff_eq]
    exact fun hEq => h l hl hEq.symm
  rw [hfil]
  rfl

lemma journalPostings_eq_nil (c : String) :
    ∀ (J : List JournalEntry), noPostings c J → journalPostings c J = [] := by
  intro J
  induction J with
  | nil => intro h; rfl
  | cons e J ih =>
      intro h
      have he : ∀ l ∈ e.lines, l.accountId ≠ c :=
        fun l hl => h e (List.mem_cons_self e J) l hl
      have hJ : noPostings c J :=
        fun e2 he2 l hl => h e2 (List.mem_cons_of_mem e he2) l hl
      rw [journalPostings, List.map_cons, List.flatten_cons,
        entryPostings_eq_nil c e he, List.nil_append]
      exact ih hJ

lemma stats_income_sum (ts : List Transaction) :
    (stats ts).income =
      (ts.map (fun t =>
        if t.type = TxType.income ∧ t.payment_status = PaymentStatus.paid then
          t.amount else 0)).sum := by
  have h0 : (stats ts).income =
      ((ts.filter
          (fun t => t.type == TxType.income && t.payment_status == PaymentStatus.paid)).map
        (fun t => t.amount)).sum := rfl
  rw [h0, sum_filter_eq_sum_ite]
  have hf :
      (fun (t : Transaction) =>
        if t.type == TxType.income && t.payment_status == PaymentStatus.paid then
          t.amount else 0) =
        fun t =>
          if t.type = TxType.income ∧ t.payment_status = PaymentStatus.paid then
            t.amount else 0 := by
    funext t
    by_cases h1 : t.type = TxType.income <;>
      by_cases h2 : t.payment_status = PaymentStatus.paid <;> simp [h1, h2]
  rw [hf]

lemma stats_expenses_sum (ts : List Transaction) :
    (stats ts).expenses =
      (ts.map (fun t =>
        if t.type = TxType.expense ∧ t.payment_status = PaymentStatus.paid then
          t.amount else 0)).sum := by
  have h0 : (stats ts).expenses =
      ((ts.filter
          (fun t => t.type == TxType.expense && t.payment_status == PaymentStatus.paid)).map
        (fun t => t.amount)).sum := rfl
  rw [h0, sum_filter_eq_sum_ite]
  have hf :
      (fun (t : Transaction) =>
        if t.type == TxType.expense && t.payment_status == PaymentStatus.paid then
          t.amount else 0) =
        fun t =>
          if t.type = TxType.expense ∧ t.payment_status = PaymentStatus.paid then
            t.amount else 0 := by
    funext t
    by_cases h1 : t.type = TxType.expense <;>
      by_cases h2 : t.payment_status = PaymentStatus.paid <;> simp [h1, h2]
  rw [hf]

lemma stats_unpaid_no_contribution (pre post : List Transaction) (t : Transaction)
    (ht : t.payment_status = PaymentStatus.unpaid) :
    (stats (pre ++ t :: post)).income = (stats (pre ++ post)).income ∧
    (stats (pre ++ t :: post)).expenses = (stats (pre ++ post)).expenses := by
  constructor
  · rw [stats_income_sum, stats_income_sum]
    simp [List.map_append, List.sum_append, ht]
  · rw [stats_expenses_sum, stats_expenses_sum]
    simp [List.map_append, List.sum_append, ht]

lemma flatten_map_nil {α β : Type} (l : List α) :
    (l.map (fun _ => ([] : List β))).flatten = [] := by
  induction l with
  | nil => rfl
  | cons _ l ih => simp [ih]

lemma entryPostings_mkEntry_nonchart (c : String) (hc : chartLookup c = none)
    (t : Transaction) : entryPostings c (mkEntry t) = [] := by
  have hne : ∀ s : String, chartLookup s ≠ none → (c == s) = false := by
    intro s hs
    rw [beq_eq_false_iff_ne]
    intro h
    subst h
    exact hs hc
  have h401 := hne "401" (by decide)
  have h101 := hne "101" (by decide)
  have h102 := hne "102" (by decide)
  have h201 := hne "201" (by decide)
  have h501 := hne "501" (by decide)
  cases ht : t.type <;> cases hp : t.payment_status <;>
    simp [entryPostings, mkEntry, ht, hp, List.filter_cons, h401, h101, h102, h201, h501]

lemma entriesAt_journal_flatten (c : String) (ts : List Transaction) :
    entriesAt c (generateLedger (generateJournal ts)) =
      (ts.map (fun t => entryPostings c (mkEntry t))).flatten := by
  cases hc : chartLookup c with
  | some acc =>
      rw [entriesAt_generateLedger_some _ c acc hc, journalPostings_generateJournal]
  | none =>
      rw [entriesAt_generateLedger_none _ c hc]
      have hall :
          (fun t => entryPostings c (mkEntry t)) =
            fun (_ : Transaction) => ([] : List LedgerEntry) :=
        funext (entryPostings_mkEntry_nonchart c hc)
      rw [hall, flatten_map_nil]

lemma applyLines_cons (e : JournalEntry) (l : JournalEntryLine)
    (ls : List JournalEntryLine) (a : LedgerAccount) :
    applyLines e (l :: ls) a = applyLines e ls (applyLine e l a) := rfl

lemma applyLines_keep (e : JournalEntry) (lines : List JournalEntryLine)
    (a : LedgerAccount) :
    applyLines (keepChartLines e) lines a = applyLines e lines a := rfl

lemma applyLines_filter_chart (e : JournalEntry) :
    ∀ (lines : List JournalEntryLine) (a : LedgerAccount),
      (chartLookup a.code).isSome = true →
      applyLines e (lines.filter (fun l => (chartLookup l.accountId).isSome)) a =
        applyLines e lines a := by
  intro lines
  induction lines with
  | nil => intro a _; rfl
  | cons l ls ih =>
      intro a ha
      rw [List.filter_cons]
      by_cases hl : (chartLookup l.accountId).isSome = true
      · rw [if_pos hl, applyLines_cons, applyLines_cons]
        exact ih (applyLine e l a) (by rw [applyLine_code]; exact ha)
      · have hne2 : a.code ≠ l.accountId := by
          intro hEq
          exact hl (by rw [← hEq]; exact ha)
        have hskip : applyLine e l a = a := by
          rw [applyLine, if_neg hne2]
        rw [if_neg hl, applyLines_cons, hskip]
        exact ih a ha

lemma applyEntry_keepChartLines (e : JournalEntry) (a : LedgerAccount)
    (ha : (chartLookup a.code).isSome = true) :
    applyEntry (keepChartLines e) a = applyEntry e a := by
  rw [applyEntry, applyEntry]
  have hlines :
      (keepChartLines e).lines =
        e.lines.filter (fun l => (chartLookup l.accountId).isSome) := rfl
  rw [hlines, applyLines_keep]
  exact applyLines_filter_chart e e.lines a ha

lemma applyJournal_keepChartLines (J : List JournalEntry) :
    ∀ (a : LedgerAccount), (chartLookup a.code).isSome = true →
      applyJournal (J.map keepChartLines) a = applyJournal J a := by
  induction J with
  | nil => intro a _; rfl
  | cons e J ih =>
      intro a ha
      simp only [List.map_cons, applyJournal, List.foldl_cons]
      rw [applyEntry_keepChartLines e a ha]
      exact ih (applyEntry e a) (by rw [applyEntry_code]; exact ha)

/-! Claim theorems. -/

/-- C1: for every transaction t in the input list, the journal entry that
generateJournal produces for t is balanced: the sum of the debit fields across
the entry's lines equals the sum of the credit fields across the entry's
lines, and both equal t.amount; this holds for every generated entry,
unconditionally (no restriction on the amount's sign or size). -/
theorem generateJournal_entries_balanced (ts : List Transaction) :
    List.Forall₂
      (fun t j =>
        debitTotal j = t.amount ∧ creditTotal j = t.amount ∧
        debitTotal j = creditTotal j)
      ts (generateJournal ts) := by
  refine forall2_generateJournal _ (fun t => ?_) ts
  cases ht : t.type <;> cases hp : t.payment_status <;>
    simp [mkEntry, ht, hp, debitTotal, creditTotal]

/-- C3: generateJournal maps each transaction to exactly one journal entry,
preserving input order (positional correspondence plus length equality), and
the entry's two lines follow the exhaustive four-row rule table: income/paid
credits Revenue 401 and debits Cash 101 by the amount; income/unpaid credits
Revenue 401 and debits Accounts Receivable 102; expense/paid debits Expense
501 and credits Cash 101; expense/unpaid debits Expense 501 and credits
Accounts Payable 201. -/
theorem generateJournal_rule_table (ts : List Transaction) :
    (generateJournal ts).length = ts.length ∧
    List.Forall₂
      (fun t j =>
        j.lines =
          match t.type, t.payment_status with
          | TxType.income, PaymentStatus.paid =>
              [⟨"401", "Pendapatan Jasa", 0, t.amount⟩,
               ⟨"101", "Kas & Bank", t.amount, 0⟩]
          | TxType.income, PaymentStatus.unpaid =>
              [⟨"401", "Pendapatan Jasa", 0, t.amount⟩,
               ⟨"102", "Piutang Usaha", t.amount, 0⟩]
          | TxType.expense, PaymentStatus.paid =>
              [⟨"501", "Beban Operasional", t.amount, 0⟩,
               ⟨"101", "Kas & Bank", 0, t.amount⟩]
          | TxType.expense, PaymentStatus.unpaid =>
              [⟨"501", "Beban Operasional", t.amount, 0⟩,
               ⟨"201", "Utang Usaha", 0, t.amount⟩])
      ts (generateJournal ts) := by
  constructor
  · simp [generateJournal]
  · refine forall2_generateJournal _ (fun t => ?_) ts
    cases ht : t.type <;> cases hp : t.payment_status <;>
      simp [mkEntry, ht, hp, accountNameOf, chartLookup, CHART_OF_ACCOUNTS]

/-- C4 counterexample: a transaction with amount 0 (a valid amount, since the
data model only demands amount >= 0) generates an entry whose two lines each
have debit = 0 and credit = 0, so no line has exactly one of the two nonzero;
the claim as stated is false at this input. -/
theorem generateJournal_zero_amount_lines_both_zero :
    generateJournal
      [⟨"t0", "2025-01-03", "nol", 0, TxType.income, PaymentStatus.paid, "c"⟩] =
      [⟨"t0", "2025-01-03", "nol",
        [⟨"401", "Pendapatan Jasa", 0, 0⟩, ⟨"101", "Kas & Bank", 0, 0⟩]⟩] := by
  decide

/-- C4 amended: every journal entry generated from a transaction carries that
transaction's id, date and description and has exactly two lines, and on each
line at most one of debit and credit is nonzero; exactly one is nonzero
whenever the transaction's amount is nonzero (when the amount is 0 both
fields of both lines are 0). -/
theorem generateJournal_entry_shape (ts : List Transaction) :
    List.Forall₂
      (fun t j =>
        j.id = t.id ∧ j.date = t.date ∧ j.description = t.description ∧
        j.lines.length = 2 ∧
        ∀ l ∈ j.lines,
          (l.debit = 0 ∨ l.credit = 0) ∧
          (t.amount ≠ 0 →
            ((l.debit ≠ 0 ∧ l.credit = 0) ∨ (l.debit = 0 ∧ l.credit ≠ 0))))
      ts (generateJournal ts) := by
  refine forall2_generateJournal _ (fun t => ?_) ts
  cases ht : t.type <;> cases hp : t.payment_status <;>
    simp [mkEntry, ht, hp]

/-- Witness for the amended C4 theorem at a concrete one-transaction input. -/
theorem generateJournal_entry_shape_witness :
    List.Forall₂
      (fun (t : Transaction) (j : JournalEntry) =>
        j.id = t.id ∧ j.date = t.date ∧ j.description = t.description ∧
        j.lines.length = 2 ∧
        ∀ l ∈ j.lines,
          (l.debit = 0 ∨ l.credit = 0) ∧
          (t.amount ≠ 0 →
            ((l.debit ≠ 0 ∧ l.credit = 0) ∨ (l.debit = 0 ∧ l.credit ≠ 0))))
      [⟨"t1", "2025-01-01", "jasa", 100000, TxType.income, PaymentStatus.paid, "c"⟩]
      (generateJournal
        [⟨"t1", "2025-01-01", "jasa", 100000, TxType.income, PaymentStatus.paid, "c"⟩]) :=
  generateJournal_entry_shape
    [⟨"t1", "2025-01-01", "jasa", 100000, TxType.income, PaymentStatus.paid, "c"⟩]

/-- C8 counterexample: a transaction with a negative amount is not rejected;
generateJournal silently produces a journal entry for it (its result type has
no failure case at all), refuting the claimed typed validation failure. -/
theorem generateJournal_negative_amount_not_rejected :
    generateJournal
      [⟨"t9", "2025-01-04", "minus", -5, TxType.expense, PaymentStatus.unpaid, "c"⟩] =
      [⟨"t9", "2025-01-04", "minus",
        [⟨"501", "Beban Operasional", -5, 0⟩, ⟨"201", "Utang Usaha", 0, -5⟩]⟩] := by
  decide

/-- C8 amended: generateJournal performs no input validation: for every
transaction list, including transactions with negative amounts, it totally
produces exactly one journal entry per transaction and never signals any
failure (its return type has no failure variant); type and payment_status
values outside their two-value domains are excluded by the static types. -/
theorem generateJournal_never_rejects (ts : List Transaction) :
    (generateJournal ts).length = ts.length := by
  simp [generateJournal]

/-- C2: for any finite list of transactions the derived balance sheet
satisfies Assets = Liabilities + Equity with exact rational arithmetic, both
for the ledger-based reading (Assets = Cash 101 + Accounts Receivable 102
ledger balances, Liabilities = Accounts Payable 201 balance, Equity = Owner
Capital 301 + (Revenue 401 - Expense 501), net income included in equity) and
for the balanceSheetData totals of ReportsPage. -/
theorem accounting_identity (ts : List Transaction) :
    balAt "101" (generateLedger (generateJournal ts)) +
        balAt "102" (generateLedger (generateJournal ts)) =
      balAt "201" (generateLedger (generateJournal ts)) +
        (balAt "301" (generateLedger (generateJournal ts)) +
          (balAt "401" (generateLedger (generateJournal ts)) -
            balAt "501" (generateLedger (generateJournal ts)))) ∧
    (balanceSheetData ts).totalAssets =
      (balanceSheetData ts).totalLiabilities + (balanceSheetData ts).equity := by
  constructor
  · rw [balAt_journal_sum "101" ts (by decide), balAt_journal_sum "102" ts (by decide),
      balAt_journal_sum "201" ts (by decide), balAt_journal_sum "301" ts (by decide),
      balAt_journal_sum "401" ts (by decide), balAt_journal_sum "501" ts (by decide)]
    exact sums_identity ts
  · rw [balanceSheetData_equity_eq]
    ring

/-- C9 counterexample: the claim is false because no valid transaction list at
all — unpaid-heavy or not — makes the two balance-sheet derivations disagree:
there is no list with nonnegative amounts on which the transaction-filter
totals of balanceSheetData differ from the ledger-based section 4.3 totals. -/
theorem balanceSheet_derivations_never_disagree :
    ¬ ∃ ts : List Transaction,
        (∀ t ∈ ts, 0 ≤ t.amount) ∧
        ¬((balanceSheetData ts).totalAssets = (ledgerBalanceSheet ts).assets ∧
          (balanceSheetData ts).totalLiabilities = (ledgerBalanceSheet ts).liabilities ∧
          (balanceSheetData ts).equity = (ledgerBalanceSheet ts).equity) := by
  rintro ⟨ts, hv, hne⟩
  exact hne (balanceSheets_agree ts)

/-- C9 amended: the two balance-sheet derivations never disagree: on every
transaction list the transaction-filter-based balanceSheetData of ReportsPage
and the ledger-based derivation of spec section 4.3 produce identical assets,
liabilities and equity totals; they differ only in presentation (the ledger
reading splits equity into Owner Capital, always 0, plus net income). -/
theorem balanceSheet_derivations_agree (ts : List Transaction) :
    (balanceSheetData ts).totalAssets = (ledgerBalanceSheet ts).assets ∧
    (balanceSheetData ts).totalLiabilities = (ledgerBalanceSheet ts).liabilities ∧
    (balanceSheetData ts).equity = (ledgerBalanceSheet ts).equity :=
  balanceSheets_agree ts

/-- C7: the stats memo computes cash-in as the sum of amounts over income
transactions with payment_status paid, cash-out as the sum over expense
transactions with payment_status paid, and profit as cash-in minus cash-out;
inserting an unpaid transaction anywhere in the list changes neither total. -/
theorem stats_cash_flow (ts : List Transaction) :
    (stats ts).income =
      (ts.map (fun t =>
        if t.type = TxType.income ∧ t.payment_status = PaymentStatus.paid then
          t.amount else 0)).sum ∧
    (stats ts).expenses =
      (ts.map (fun t =>
        if t.type = TxType.expense ∧ t.payment_status = PaymentStatus.paid then
          t.amount else 0)).sum ∧
    (stats ts).profit = (stats ts).income - (stats ts).expenses ∧
    (∀ (pre post : List Transaction) (t : Transaction),
      t.payment_status = PaymentStatus.unpaid →
        (stats (pre ++ t :: post)).income = (stats (pre ++ post)).income ∧
        (stats (pre ++ t :: post)).expenses = (stats (pre ++ post)).expenses) :=
  ⟨stats_income_sum ts, stats_expenses_sum ts, rfl, stats_unpaid_no_contribution⟩

/-- Witness for the C7 theorem: inserting the concrete unpaid transaction txU
into the empty list leaves both cash-flow totals unchanged. -/
theorem stats_cash_flow_witness :
    (stats ([] ++ txU :: [])).income = (stats ([] ++ [])).income ∧
    (stats ([] ++ txU :: [])).expenses = (stats ([] ++ [])).expenses :=
  (stats_cash_flow []).2.2.2 [] [] txU rfl

/-- C5: for every journal-entry list input, including the empty one,
generateLedger returns exactly one ledger-account view per chart-of-accounts
entry, in chart order (the eight accounts 101, 102, 201, 301, 302, 303, 401,
501), and any account that received no postings keeps balance 0 and an empty
entry list. -/
theorem generateLedger_complete (J : List JournalEntry) (c : String) :
    (generateLedger J).map (fun a => a.code) =
      ["101", "102", "201", "301", "302", "303", "401", "501"] ∧
    (noPostings c J →
      balAt c (generateLedger J) = 0 ∧ entriesAt c (generateLedger J) = []) := by
  constructor
  · rw [generateLedger_codes]
    rfl
  · intro h
    cases hc : chartLookup c with
    | none =>
        exact ⟨balAt_generateLedger_none J c hc, entriesAt_generateLedger_none J c hc⟩
    | some acc =>
        refine ⟨?_, ?_⟩
        · rw [balAt_generateLedger_some J c acc hc]
          exact journalDelta_eq_zero c J h
        · rw [entriesAt_generateLedger_some J c acc hc]
          exact journalPostings_eq_nil c J h

/-- Witness for the C5 theorem on the empty journal and account 101: the chart
codes come out in order, and the untouched Cash account has balance 0 and no
entries. -/
theorem generateLedger_complete_witness :
    (generateLedger []).map (fun a => a.code) =
      ["101", "102", "201", "301", "302", "303", "401", "501"] ∧
    (balAt "101" (generateLedger []) = 0 ∧ entriesAt "101" (generateLedger []) = []) :=
  ⟨(generateLedger_complete [] "101").1,
   (generateLedger_complete [] "101").2 (by simp [noPostings])⟩

/-- C6: running generateJournal followed by generateLedger twice on the same
transaction sequence yields identical output (the pipeline is a pure
function, so the two runs are the same term); for any permutation of a
transaction list every account's final ledger balance is unchanged (distinct
dates are not even needed); and each account's entry history is exactly the
in-input-order concatenation of the rows each transaction posts to it, so
entry order mirrors transaction input order. -/
theorem journal_ledger_deterministic_perm (ts ts2 : List Transaction)
    (hperm : ts.Perm ts2) :
    generateLedger (generateJournal ts) = generateLedger (generateJournal ts) ∧
    (∀ c : String,
      balAt c (generateLedger (generateJournal ts)) =
        balAt c (generateLedger (generateJournal ts2))) ∧
    (∀ c : String,
      entriesAt c (generateLedger (generateJournal ts)) =
        (ts.map (fun t => entryPostings c (mkEntry t))).flatten) := by
  refine ⟨rfl, ?_, fun c => entriesAt_journal_flatten c ts⟩
  intro c
  cases hc : chartLookup c with
  | none =>
      rw [balAt_generateLedger_none _ c hc, balAt_generateLedger_none _ c hc]
  | some acc =>
      rw [balAt_generateLedger_some _ c acc hc, balAt_generateLedger_some _ c acc hc,
        journalDelta_generateJournal, journalDelta_generateJournal]
      exact (hperm.map _).sum_eq

/-- Witness for the C6 theorem on the two-element list txA, txB (which carry
distinct dates) and its swap. -/
theorem journal_ledger_deterministic_perm_witness :
    generateLedger (generateJournal [txA, txB]) =
      generateLedger (generateJournal [txA, txB]) ∧
    (∀ c : String,
      balAt c (generateLedger (generateJournal [txA, txB])) =
        balAt c (generateLedger (generateJournal [txB, txA]))) ∧
    (∀ c : String,
      entriesAt c (generateLedger (generateJournal [txA, txB])) =
        ([txA, txB].map (fun t => entryPostings c (mkEntry t))).flatten) :=
  journal_ledger_deterministic_perm [txA, txB] [txB, txA] (List.Perm.swap txB txA [])

/-- C10: generateLedger is total over arbitrary journal input (it is a plain
function in the embedding) and silently skips any line whose accountId is not
a chart key: dropping exactly those lines from every entry leaves the
generated ledger unchanged — such a line changes no account's balance or
entry list and raises no error, while the remaining lines of the same entry
are still posted. -/
theorem generateLedger_skips_unknown_accounts (J : List JournalEntry) :
    generateLedger (J.map keepChartLines) = generateLedger J := by
  rw [generateLedger_eq_map, generateLedger_eq_map]
  refine List.map_congr_left ?_
  intro acc hacc
  refine applyJournal_keepChartLines J (initAccount acc) ?_
  have hcode : (initAccount acc).code = acc.code := rfl
  rw [hcode]
  exact List.find?_isSome.mpr ⟨acc, hacc, by simp⟩

end Pembukuan
